import Mathlib

/-!
Verification of minimal-json-schema: a shallow embedding of the two
validators of the repository (`src/schema.js`, the SchemaValidator, and
`src/object.js`, the DataValidator — the latter provided as an unnamed
source file) as Lean functions over a model of JavaScript values, together
with theorems settling the frozen claims about them.
-/

set_option maxRecDepth 20000

namespace MinJsonSchema

/-- A JavaScript/JSON value as the validators see it.  Numbers are modelled
as integers: every number the validators compare or print (`minLength`,
`maxItems`, lengths, set sizes) is integral. -/
inductive JSVal where
  | undef
  | null
  | bool (b : Bool)
  | num (n : Int)
  | str (s : String)
  | arr (elems : List JSVal)
  | obj (fields : List (String × JSVal))

/-- The `{valid, reason?}` record both validators return:
`{valid: true}` carries no reason, failures carry one. -/
structure VResult where
  valid : Bool
  reason : Option String
deriving DecidableEq, Repr

/-- JavaScript truthiness, as used by the `!x` and `x && y` guards in the
source (`NaN` does not occur in the model; all numbers are integral). -/
def truthy : JSVal → Bool
  | JSVal.undef => false
  | .null => false
  | .bool b => b
  | .num n => n != 0
  | .str s => !s.isEmpty
  | .arr _ => true
  | .obj _ => true

/-- JavaScript `typeof`. Arrays and `null` are `"object"`. -/
def typeofJS : JSVal → String
  | JSVal.undef => "undefined"
  | .null => "object"
  | .bool _ => "boolean"
  | .num _ => "number"
  | .str _ => "string"
  | .arr _ => "object"
  | .obj _ => "object"

/-- `Array.isArray`. -/
def isArrayJS : JSVal → Bool
  | .arr _ => true
  | _ => false

/-- JavaScript strict equality / SameValueZero, as used by `===`, `Set`
membership and `Set.delete`.  Composite values (objects, arrays) compare by
reference in JavaScript; two distinct literals are distinct references, which
this model renders as never equal. -/
def jsEq : JSVal → JSVal → Bool
  | JSVal.undef, JSVal.undef => true
  | .null, .null => true
  | .bool a, .bool b => a == b
  | .num a, .num b => a == b
  | .str a, .str b => a == b
  | _, _ => false

/-- Property read `v[k]` / `v.k`: named fields of objects, index keys of
arrays and strings (the only computed keys the validators use), `undefined`
elsewhere.  (Reading a property of `null`/`undefined` throws in JavaScript;
the validators reach reads only through values guarded by `Object.keys` or
truthiness, or on ill-formed schemas outside every claim, so the throw is
not modelled here.) -/
def jsGet (v : JSVal) (k : String) : JSVal :=
  match v with
  | .obj fields =>
    match fields.find? (fun p => p.1 == k) with
    | some p => p.2
    | none => JSVal.undef
  | .arr xs =>
    match k.toNat? with
    | some i => xs.getD i JSVal.undef
    | none => JSVal.undef
  | .str s =>
    match k.toNat? with
    | some i =>
      match s.toList[i]? with
      | some c => .str (String.mk [c])
      | none => JSVal.undef
    | none => JSVal.undef
  | _ => JSVal.undef

/-- The `key in x` test (own enumerable keys; the validators apply it to the
plain `properties` object). -/
def hasKey (v : JSVal) (k : String) : Bool :=
  match v with
  | .obj fields => fields.any (fun p => p.1 == k)
  | .arr xs =>
    match k.toNat? with
    | some i => decide (i < xs.length)
    | none => false
  | _ => false

/-- `Object.keys`.  Throws a `TypeError` on `null`/`undefined`; index keys
for arrays and strings; no own enumerable keys on the other primitives. -/
def objectKeys : JSVal → Except String (List String)
  | JSVal.undef => .error "TypeError: Cannot convert undefined or null to object"
  | .null => .error "TypeError: Cannot convert undefined or null to object"
  | .obj fields => .ok (fields.map (fun p => p.1))
  | .arr xs => .ok ((List.range xs.length).map (fun i => toString i))
  | .str s => .ok ((List.range s.length).map (fun i => toString i))
  | _ => .ok []

/-- First-occurrence deduplication with SameValueZero: the insertion
behaviour of a JavaScript `Set`. -/
def dedupFirst (xs : List JSVal) : List JSVal :=
  xs.foldl (fun acc x => if acc.any (fun y => jsEq y x) then acc else acc ++ [x]) []

/-- `new Set(x)`: `undefined`/`null` give the empty set, arrays collect
their elements, strings their characters; other values are not iterable
and throw. -/
def newSet : JSVal → Except String (List JSVal)
  | JSVal.undef => .ok []
  | .null => .ok []
  | .arr xs => .ok (dedupFirst xs)
  | .str s => .ok (dedupFirst (s.toList.map (fun c => .str (String.mk [c]))))
  | _ => .error "TypeError: the argument of the Set constructor is not iterable"

/-- `set.delete(x)`, modelled functionally (the source only reads the set
afterwards). -/
def setDelete (s : List JSVal) (x : JSVal) : List JSVal :=
  s.filter (fun y => !(jsEq y x))

/-- JavaScript `<` restricted to numbers — the only comparison the
validators perform on values that passed their `typeof` guards (JavaScript's
coercing comparisons on other shapes arise only for schemas that already
failed the SchemaValidator, outside every claim's hypotheses). -/
def jsLT (a b : JSVal) : Bool :=
  match a, b with
  | .num x, .num y => decide (x < y)
  | _, _ => false

/-- JavaScript `>`. -/
def jsGT (a b : JSVal) : Bool := jsLT b a

mutual
/-- String interpolation of a value, `${v}` in a template literal.  Arrays
join their elements with commas (`null`/`undefined` elements print empty),
objects print as `[object Object]`. -/
def jsToString : JSVal → String
  | JSVal.undef => "undefined"
  | .null => "null"
  | .bool b => if b then "true" else "false"
  | .num n => toString n
  | .str s => s
  | .arr xs => String.intercalate "," (jsToStringList xs)
  | .obj _ => "[object Object]"

/-- Interpolations of the elements of an array, for `jsToString`. -/
def jsToStringList : List JSVal → List String
  | [] => []
  | JSVal.undef :: xs => "" :: jsToStringList xs
  | .null :: xs => "" :: jsToStringList xs
  | x :: xs => jsToString x :: jsToStringList xs
end

mutual
/-- Number of constructors in a value: an executable size measure, used only
to hand the data validator enough recursion fuel. -/
def jsSize : JSVal → Nat
  | JSVal.undef => 1
  | .null => 1
  | .bool _ => 1
  | .num _ => 1
  | .str _ => 1
  | .arr xs => 1 + jsSizeList xs
  | .obj fs => 1 + jsSizeFields fs

/-- Size of a list of values, for `jsSize`. -/
def jsSizeList : List JSVal → Nat
  | [] => 0
  | x :: xs => 1 + jsSize x + jsSizeList xs

/-- Size of an object's field list, for `jsSize`. -/
def jsSizeFields : List (String × JSVal) → Nat
  | [] => 0
  | (_, x) :: xs => 1 + jsSize x + jsSizeFields xs
end

/-!
## The SchemaValidator — `src/schema.js`

Translated function by function.  The recursion of `validate` (mutual with
`validateObject` in the source) is made structural on an explicit fuel
argument; one unit of fuel is consumed per nested `validate` call, exactly
mirroring the JavaScript call tree.  Since `validate` refuses depth > 20
before doing anything else, a call starting at depth 0 never nests more
than 22 `validate` frames, and the fixed fuel 25 of the public wrapper
`validateSchema` can never run out.

A JavaScript exception (`Set` constructor on a non-iterable `required`)
is an `Except.error`; an ordinary `{valid, reason}` return is `Except.ok`.
-/

namespace SchemaV

/-- The frozen `ALLOWED_TYPES` table of `src/schema.js`: for each leaf type,
the set of keys permitted on a node of that type. -/
def ALLOWED_TYPES : List (String × List String) :=
  [("string", ["type", "default", "minLength", "maxLength"]),
   ("boolean", ["type", "default"]),
   ("number", ["type", "default"])]

/-- `ALLOWED_TYPES[t]` (property lookup; `some` exactly when `t in
ALLOWED_TYPES`). -/
def allowedFor (t : String) : Option (List String) :=
  (ALLOWED_TYPES.find? (fun p => p.1 == t)).map (fun p => p.2)

/-- `validateArray(schema)` of `src/schema.js` (lines 24–48): checks `type`
and `items` are present and that present `minItems`/`maxItems` are numbers.
The recursive validation of `items` happens in `validate`, not here. -/
def validateArray (schema : JSVal) : VResult :=
  if truthy (jsGet schema "type") = false then
    ⟨false, some "The 'type' field is missing"⟩
  else if truthy (jsGet schema "items") = false then
    ⟨false, some "Expected 'items' field in array object schema"⟩
  else if truthy (jsGet schema "minItems") && !(typeofJS (jsGet schema "minItems") == "number") then
    ⟨false, some "Invalid type for minItems: Expected a number"⟩
  else if truthy (jsGet schema "maxItems") && !(typeofJS (jsGet schema "maxItems") == "number") then
    ⟨false, some "Invalid type for maxItems: Expected a number"⟩
  else ⟨true, none⟩

/-- The `for (const value_key of Object.keys(schema))` loop of `validate`'s
leaf branch (lines 125–138): every key must be in the type's allowed set,
and a present `minLength`/`maxLength` of a string node must be a number. -/
def leafLoop (schema : JSVal) (allowed : List String) : List String → VResult
  | [] => ⟨true, none⟩
  | value_key :: rest =>
    if allowed.contains value_key = false then
      ⟨false, some ("Unexpected schema key '" ++ value_key ++ "' for "
        ++ jsToString (jsGet schema "type")
        ++ " instance, expected one of [object Set Iterator]")⟩
    else if jsEq (jsGet schema "type") (.str "string")
        && (value_key == "minLength" || value_key == "maxLength")
        && !(typeofJS (jsGet schema value_key) == "number") then
      ⟨false, some ("Invalid string: " ++ value_key ++ " must be a number (got "
        ++ jsToString (jsGet schema value_key) ++ ")")⟩
    else leafLoop schema allowed rest

/-- The `for (const key of Object.keys(schema.properties))` loop of
`validateObject` (lines 66–87): delete the key from the working required
set, fail on a child with no `type`, recursively validate the child
(wrapping its reason), and at the end fail if required names remain.
`validateChild` is `validate` at `depth + 1`, supplied by the caller.
(`required.entries()` interpolated into a template literal prints as
`[object Set Iterator]`.) -/
def objLoop (validateChild : JSVal → Except String VResult) (props : JSVal) :
    List String → List JSVal → Except String VResult
  | [], required =>
    if required.length != 0 then
      .ok ⟨false, some "Some required fields were not provided: [object Set Iterator]"⟩
    else .ok ⟨true, none⟩
  | key :: rest, required =>
    let required' := setDelete required (.str key)
    if truthy (jsGet (jsGet props key) "type") = false then
      .ok ⟨false, some ("The 'type' field is missing in key " ++ key)⟩
    else
      match validateChild (jsGet props key) with
      | .error e => .error e
      | .ok r =>
        if r.valid = false then
          .ok ⟨false, some ("Ill-formatted type at key '" ++ key ++ "': "
            ++ r.reason.getD "undefined")⟩
        else objLoop validateChild props rest required'

/-- `validateObject(schema, depth)` of `src/schema.js` (lines 55–89):
requires truthy `properties`, builds the required `Set`, fails fast when
more names are required than properties exist, then runs the key loop. -/
def validateObject (validateChild : JSVal → Except String VResult) (schema : JSVal) :
    Except String VResult :=
  if truthy (jsGet schema "properties") = false then
    .ok ⟨false, some "At least one property must be set"⟩
  else
    match newSet (jsGet schema "required") with
    | .error e => .error e
    | .ok required =>
      match objectKeys (jsGet schema "properties") with
      | .error e => .error e
      | .ok propKeys =>
        if required.length > propKeys.length then
          .ok ⟨false, some ("Insatisfiable requirement: more required fields than properties ("
            ++ toString required.length ++ " > " ++ toString propKeys.length ++ ")")⟩
        else objLoop validateChild (jsGet schema "properties") propKeys required

/-- `validate(schema, depth)` of `src/schema.js` (lines 96–146): depth
guard, missing-`type` check, then dispatch on `type` — `object` and `array`
recurse (children at `depth + 1`), leaf types run the allowed-key loop, and
any other `type` is ill-formatted.  An interpolated `undefined` reason
prints as the string `undefined`, as in JavaScript. -/
def validate : Nat → JSVal → Nat → Except String VResult
  | 0, _, _ =>
    .error "recursion fuel exhausted: unreachable, the depth guard stops nesting at 22 frames"
  | Nat.succ fuel, schema, depth =>
    if depth > 20 then
      .ok ⟨false, some "Maximum schema depth (20) exceeded"⟩
    else if truthy (jsGet schema "type") = false then
      .ok ⟨false, some "The 'type' field is missing in object"⟩
    else if jsEq (jsGet schema "type") (.str "object") then
      match validateObject (fun c => validate fuel c (depth + 1)) schema with
      | .error e => .error e
      | .ok r =>
        if r.valid = false then
          .ok ⟨false, some ("Invalid object: " ++ r.reason.getD "undefined")⟩
        else .ok ⟨true, none⟩
    else if jsEq (jsGet schema "type") (.str "array") then
      if (validateArray schema).valid = false then
        .ok ⟨false, some ("Invalid array: " ++ (validateArray schema).reason.getD "undefined")⟩
      else
        match validate fuel (jsGet schema "items") (depth + 1) with
        | .error e => .error e
        | .ok r =>
          if r.valid = false then
            .ok ⟨false, some ("Invalid array: " ++ r.reason.getD "undefined")⟩
          else .ok ⟨true, none⟩
    else
      match allowedFor (jsToString (jsGet schema "type")) with
      | some allowed_for_type =>
        match objectKeys schema with
        | .error e => .error e
        | .ok keys => .ok (leafLoop schema allowed_for_type keys)
      | none =>
        .ok ⟨false, some ("Ill-formatted type: " ++ jsToString (jsGet schema "type")
          ++ " is not a valid JSON schema instance")⟩

end SchemaV

/-- The public SchemaValidator entry point, `validate(schema)` of
`src/schema.js` with its default `depth = 0`.  Fuel 25 (written in
successor form so that one step always unfolds) exceeds the 22 frames the
depth guard permits, so it can never be exhausted. -/
def validateSchema (schema : JSVal) : Except String VResult :=
  SchemaV.validate (Nat.succ 24) schema 0

/-- Whether the SchemaValidator accepts a schema: an ordinary return with
`valid: true` (a thrown exception is not acceptance). -/
def schemaValid (schema : JSVal) : Bool :=
  match validateSchema schema with
  | .ok r => r.valid
  | .error _ => false

/-!
## The DataValidator — `src/object.js` (the unnamed source file)

Same conventions as above.  `Except.error` models a thrown `Error` (the
fail-fast `throw new Error(...)` statements of `validateArray` and
`validateObject`) or `TypeError` (`Object.keys` on `null`).  One unit of
fuel per nested `validate` call; each nested call either descends into a
strictly smaller value (object property, array element) or keeps a
one-character string while raising `depth` by 2, which the `depth > 20`
guard cuts after at most 11 steps, so `12 * jsSize + 25` fuel is more than
any chain can consume.
-/

namespace ObjectV

/-- The element loop of `validateArray` of `src/object.js` (lines 28–34):
each element is validated against `schema.items` with depth restarted at 0
(`validateItem` is `validate ... 0`, supplied by the caller); the first
failure is reported with its index. -/
def arrLoop (validateItem : JSVal → Except String VResult) :
    List JSVal → Nat → Except String VResult
  | [], _ => .ok ⟨true, none⟩
  | item :: rest, i =>
    match validateItem item with
    | .error e => .error e
    | .ok r =>
      if r.valid = false then
        .ok ⟨false, some ("Invalid item at index " ++ toString i ++ ": "
          ++ r.reason.getD "undefined")⟩
      else arrLoop validateItem rest (i + 1)

/-- `validateArray(object, schema)` of `src/object.js` (lines 14–36):
throws on a schema with no `items` (fail-fast on an unvalidated schema),
rejects non-arrays, enforces truthy `minItems`/`maxItems` bounds — note the
`maxItems` failure message is copy-pasted from the `minItems` one — then
validates the elements. -/
def validateArray (validateItem : JSVal → Except String VResult)
    (object schema : JSVal) : Except String VResult :=
  if truthy (jsGet schema "items") = false then
    .error "'validateObject' called with unvalidated schema: This should never happen, go fix your code!"
  else
    match object with
    | .arr xs =>
      if truthy (jsGet schema "minItems") && jsLT (.num xs.length) (jsGet schema "minItems") then
        .ok ⟨false, some ("Object length is smaller than 'minItems' ("
          ++ toString xs.length ++ " < " ++ jsToString (jsGet schema "minItems") ++ ")")⟩
      else if truthy (jsGet schema "maxItems") && jsGT (.num xs.length) (jsGet schema "maxItems") then
        .ok ⟨false, some ("Object length is smaller than 'minItems' ("
          ++ toString xs.length ++ " > " ++ jsToString (jsGet schema "maxItems") ++ ")")⟩
      else arrLoop validateItem xs 0
    | _ => .ok ⟨false, some "Not an array"⟩

/-- The `for (const key of Object.keys(object))` loop of `validateObject`
of `src/object.js` (lines 50–64): a key not declared in `properties` is
unexpected; the value is validated recursively (`validateChild` is
`validate` at the loop's `depth + 1`, supplied by the caller); then the
value's dynamic type tag must equal the declared `type`; finally the key is
removed from the working required set.  After the loop, remaining required
names fail (`required.entries()` prints as `[object Set Iterator]`). -/
def objLoop (validateChild : JSVal → JSVal → Except String VResult)
    (object props : JSVal) : List String → List JSVal → Except String VResult
  | [], required =>
    if required.length != 0 then
      .ok ⟨false, some "Some required fields were not provided: [object Set Iterator]"⟩
    else .ok ⟨true, none⟩
  | key :: rest, required =>
    if hasKey props key = false then
      .ok ⟨false, some ("Unexpected key " ++ key)⟩
    else
      match validateChild (jsGet object key) (jsGet props key) with
      | .error e => .error e
      | .ok r =>
        if r.valid = false then
          .ok ⟨false, some ("Ill-formatted type at key '" ++ key ++ "': "
            ++ r.reason.getD "undefined")⟩
        else
          let value_type := if isArrayJS (jsGet object key) = true then "array"
            else typeofJS (jsGet object key)
          if jsEq (.str value_type) (jsGet (jsGet props key) "type") = false then
            .ok ⟨false, some ("Invalid type '" ++ value_type ++ "' for key " ++ key
              ++ " (expected " ++ jsToString (jsGet (jsGet props key) "type") ++ ")")⟩
          else objLoop validateChild object props rest (setDelete required (.str key))

/-- `validateObject(object, schema, depth)` of `src/object.js` (lines
44–69): throws when `properties` or `required` is falsy (fail-fast on what
it takes for an unvalidated schema — even though the SchemaValidator
accepts object schemas with no `required`), builds the required `Set`,
iterates `Object.keys(object)` (which throws on `null`), then reports
required names never seen. -/
def validateObject (validateChild : JSVal → JSVal → Except String VResult)
    (object schema : JSVal) : Except String VResult :=
  if truthy (jsGet schema "properties") = false || truthy (jsGet schema "required") = false then
    .error "'validateObject' called with an unvalidated schema: This should never happen, go fix your code!"
  else
    match newSet (jsGet schema "required") with
    | .error e => .error e
    | .ok required =>
      match objectKeys object with
      | .error e => .error e
      | .ok keys => objLoop validateChild object (jsGet schema "properties") keys required

/-- The `schema.type === 'string'` branch of `validate` of `src/object.js`
(lines 92–101): reject non-strings, then enforce truthy `minLength` and
`maxLength` against the string's length. -/
def checkString (object schema : JSVal) : Except String VResult :=
  match object with
  | .str s =>
    if truthy (jsGet schema "minLength") && jsLT (.num s.length) (jsGet schema "minLength") then
      .ok ⟨false, some ("Got string shorter than minLength (" ++ toString s.length
        ++ " < " ++ jsToString (jsGet schema "minLength") ++ ")")⟩
    else if truthy (jsGet schema "maxLength") && jsGT (.num s.length) (jsGet schema "maxLength") then
      .ok ⟨false, some ("Got string longer than maxLength (" ++ toString s.length
        ++ " > " ++ jsToString (jsGet schema "maxLength") ++ ")")⟩
    else .ok ⟨true, none⟩
  | v => .ok ⟨false, some ("Invalid type: expected string, got " ++ typeofJS v)⟩

/-- The `schema.type === 'number'` branch of `validate` of `src/object.js`
(lines 102–105). -/
def checkNumber (object : JSVal) : Except String VResult :=
  match object with
  | .num _ => .ok ⟨true, none⟩
  | v => .ok ⟨false, some ("Invalid type: Expected number, got " ++ typeofJS v)⟩

/-- The `schema.type === 'boolean'` branch of `validate` of `src/object.js`
(lines 106–109). -/
def checkBoolean (object : JSVal) : Except String VResult :=
  match object with
  | .bool _ => .ok ⟨true, none⟩
  | v => .ok ⟨false, some ("Invalid type: Expected boolean, got " ++ typeofJS v)⟩

/-- `validate(object, schema, depth)` of `src/object.js` (lines 78–112):
depth guard, then dispatch on `schema.type` — `object` hands off to
`validateObject` at `depth + 1` (whose children then run at `depth + 2`),
`array` to `validateArray` (whose elements restart at depth 0), the three
leaf types check the dynamic type and the string bounds, and any other
`type` value falls through to `{valid: true}`. -/
def validate : Nat → JSVal → JSVal → Nat → Except String VResult
  | 0, _, _, _ =>
    .error "recursion fuel exhausted: unreachable, the wrapper supplies more fuel than any chain can use"
  | Nat.succ fuel, object, schema, depth =>
    if depth > 20 then
      .ok ⟨false, some "Maximum object depth (20) exceeded"⟩
    else if jsEq (jsGet schema "type") (.str "object") then
      match validateObject (fun v s => validate fuel v s (depth + 1 + 1)) object schema with
      | .error e => .error e
      | .ok r =>
        if r.valid = false then
          .ok ⟨false, some ("Invalid object: " ++ r.reason.getD "undefined")⟩
        else .ok ⟨true, none⟩
    else if jsEq (jsGet schema "type") (.str "array") then
      match validateArray (fun item => validate fuel item (jsGet schema "items") 0) object schema with
      | .error e => .error e
      | .ok r =>
        if r.valid = false then
          .ok ⟨false, some ("Invalid array: " ++ r.reason.getD "undefined")⟩
        else .ok ⟨true, none⟩
    else if jsEq (jsGet schema "type") (.str "string") then
      checkString object schema
    else if jsEq (jsGet schema "type") (.str "number") then
      checkNumber object
    else if jsEq (jsGet schema "type") (.str "boolean") then
      checkBoolean object
    else .ok ⟨true, none⟩

end ObjectV

/-- The public DataValidator entry point, `validate(object, schema)` of
`src/object.js` with its default `depth = 0`.  The fuel (in successor form
so that one step always unfolds) exceeds the longest possible chain of
nested `validate` calls — see the fuel discussion above `ObjectV`. -/
def validateData (object schema : JSVal) : Except String VResult :=
  ObjectV.validate (Nat.succ (12 * jsSize object + 24)) object schema 0

/-!
## Concrete schemas and values used by the claims
-/

/-- An object schema with no `required` field: the SchemaValidator accepts
it (`required` is optional there), `{type: "object", properties: {foo:
{type: "string"}}}`. -/
def schemaNoRequired : JSVal :=
  .obj [("type", .str "object"),
        ("properties", .obj [("foo", .obj [("type", .str "string")])])]

/-- The schema `{type: "object", required: [], properties: {code: {type: "number"}}}`. -/
def schemaEmptyRequired : JSVal :=
  .obj [("type", .str "object"), ("required", .arr []),
        ("properties", .obj [("code", .obj [("type", .str "number")])])]

/-- An `array → items` chain: `arrChain (n+1)` is `{type: "array", items:
arrChain n}` and `arrChain 0` is `{type: "string"}`, so `arrChain n` is a
schema nested exactly `n` levels deep. -/
def arrChain : Nat → JSVal
  | 0 => .obj [("type", .str "string")]
  | n + 1 => .obj [("type", .str "array"), ("items", arrChain n)]

/-- An `object → property` schema chain: `objChainS n` is an object schema
nested exactly `n` levels deep whose single property `a` is required at
every level and whose leaf is `{type: "number"}`. -/
def objChainS : Nat → JSVal
  | 0 => .obj [("type", .str "number")]
  | n + 1 => .obj [("type", .str "object"), ("required", .arr [.str "a"]),
      ("properties", .obj [("a", objChainS n)])]

/-- The data value matching `objChainS n`: an object nested exactly `n`
levels deep, `{a: {a: ... {a: 1}}}`. -/
def objChainD : Nat → JSVal
  | 0 => .num 1
  | n + 1 => .obj [("a", objChainD n)]

/-- The schema `{type: "object", properties: {}}` — present but empty `properties`. -/
def schemaEmptyProps : JSVal :=
  .obj [("type", .str "object"), ("properties", .obj [])]

/-- The schema `{type: "object", required: ["foo", "bar"], properties: {foo:
{type: "string"}}}` — two required names, one declared property. -/
def schemaTwoRequired : JSVal :=
  .obj [("type", .str "object"),
        ("required", .arr [.str "foo", .str "bar"]),
        ("properties", .obj [("foo", .obj [("type", .str "string")])])]

/-- The schema `{type: "array", items: {type: "string"}, maxItems: 1}`. -/
def schemaMaxItems1 : JSVal :=
  .obj [("type", .str "array"), ("items", .obj [("type", .str "string")]),
        ("maxItems", .num 1)]

/-- The schema `{type: "boolean", minLength: 1}` — an unknown key on a leaf node. -/
def schemaBoolMinLength : JSVal :=
  .obj [("type", .str "boolean"), ("minLength", .num 1)]

/-- The schema `{type: "array", items: {type: "string"}, minItems: 0, maxItems: 0}`. -/
def schemaZeroBoundsArr : JSVal :=
  .obj [("type", .str "array"), ("items", .obj [("type", .str "string")]),
        ("minItems", .num 0), ("maxItems", .num 0)]

/-- The schema `{type: "string", minLength: 0, maxLength: 0}`. -/
def schemaZeroBoundsStr : JSVal :=
  .obj [("type", .str "string"), ("minLength", .num 0), ("maxLength", .num 0)]

/-!
## Claim theorems: concrete evaluations (C1, C2, C3, C4, C7)
-/

/-- C1: refuted by the code.  The schema `{type: "object", properties:
{foo: {type: "string"}}}` passes the SchemaValidator (its optional
`required` is absent), yet the DataValidator throws its "unvalidated
schema" `Error` on it — for the value `{}`, and indeed before ever looking
at the value — instead of returning a structured `{valid, reason}` result. -/
theorem c1_throws_on_valid_schema_without_required :
    validateSchema schemaNoRequired = .ok ⟨true, none⟩ ∧
    validateData (.obj []) schemaNoRequired =
      .error "'validateObject' called with an unvalidated schema: This should never happen, go fix your code!" :=
  ⟨rfl, rfl⟩

/-- C2: refuted by the code.  `{type: "object", required: [], properties:
{code: {type: "number"}}}` passes the SchemaValidator, yet the DataValidator
returns `{valid: true}` for the non-object value `42` — `validateObject`
never checks that the value is a mapping (`Object.keys(42)` is just empty) —
and for `null` it even throws a `TypeError` from `Object.keys`. -/
theorem c2_accepts_number_against_object_schema :
    validateSchema schemaEmptyRequired = .ok ⟨true, none⟩ ∧
    validateData (.num 42) schemaEmptyRequired = .ok ⟨true, none⟩ ∧
    validateData .null schemaEmptyRequired =
      .error "TypeError: Cannot convert undefined or null to object" :=
  ⟨rfl, rfl, rfl⟩

/-- C3: counterexample to the claim as stated.  `objChainS 20` is an
object-property schema nested exactly 20 levels deep and the SchemaValidator
accepts it, so the matching data value `objChainD 20` (20 levels deep,
otherwise valid) should be accepted per the claim — but the DataValidator
rejects it with the depth-exceeded reason, because its depth counter grows
by 2 per object level. -/
theorem c3_counterexample_data_depth20_rejected :
    validateSchema (objChainS 20) = .ok ⟨true, none⟩ ∧
    validateData (objChainD 20) (objChainS 20) =
      .ok ⟨false, some (String.join (List.replicate 11 "Invalid object: Ill-formatted type at key 'a': ")
        ++ "Maximum object depth (20) exceeded")⟩ :=
  ⟨rfl, rfl⟩

/-- C3 (amended): the SchemaValidator boundary is as claimed — a schema
nested exactly 21 levels deep is rejected with the depth-exceeded reason
and one nested exactly 20 levels deep is accepted — but the DataValidator
boundary for object-nested data is 11/10, not 21/20: its depth counter
grows by 2 per object level (`validateObject` is entered at `depth + 1` and
recurses into property values at another `+ 1`), so data nested exactly 11
object levels deep (with its SchemaValidator-accepted 11-level schema) is
rejected with the depth-exceeded reason while 10 levels deep is accepted. -/
theorem c3_amended_depth_boundaries :
    validateSchema (arrChain 21) =
      .ok ⟨false, some (String.join (List.replicate 21 "Invalid array: ")
        ++ "Maximum schema depth (20) exceeded")⟩ ∧
    validateSchema (arrChain 20) = .ok ⟨true, none⟩ ∧
    validateSchema (objChainS 11) = .ok ⟨true, none⟩ ∧
    validateData (objChainD 11) (objChainS 11) =
      .ok ⟨false, some (String.join (List.replicate 11 "Invalid object: Ill-formatted type at key 'a': ")
        ++ "Maximum object depth (20) exceeded")⟩ ∧
    validateSchema (objChainS 10) = .ok ⟨true, none⟩ ∧
    validateData (objChainD 10) (objChainS 10) = .ok ⟨true, none⟩ :=
  ⟨rfl, rfl, rfl, rfl, rfl, rfl⟩

/-- C4: refuted by the code.  `{type: "object", properties: {}}` is accepted
by the SchemaValidator: the guard `!schema.properties` only catches an
absent (falsy) `properties`, and an empty object is truthy — although the
guard's own reason string says "At least one property must be set". -/
theorem c4_empty_properties_accepted :
    validateSchema schemaEmptyProps = .ok ⟨true, none⟩ :=
  rfl

/-- C7: the DataValidator rejects `["a", "b"]` against `{type: "array",
items: {type: "string"}, maxItems: 1}` — the check that fires is the
`maxItems` bound — but the reason string is copy-pasted from the `minItems`
branch and cites `minItems`, not `maxItems`: "Object length is smaller than
'minItems' (2 > 1)". -/
theorem c7_maxitems_violation_mislabelled :
    validateSchema schemaMaxItems1 = .ok ⟨true, none⟩ ∧
    validateData (.arr [.str "a", .str "b"]) schemaMaxItems1 =
      .ok ⟨false, some "Invalid array: Object length is smaller than 'minItems' (2 > 1)"⟩ :=
  ⟨rfl, rfl⟩

/-- C8: both validators are deterministic pure functions: the embedding of
the source required no state threading (the only mutation in the source,
`required.delete`, acts on a `Set` freshly created per call), so a repeated
run on the same inputs is the very same computation and yields the same
result, and the inputs, being values, are unchanged. -/
theorem c8_validators_deterministic (schema object : JSVal) :
    validateSchema schema = validateSchema schema ∧
    validateData object schema = validateData object schema :=
  ⟨rfl, rfl⟩


/-!
## Claim theorems: quantified properties (C6, C10)
-/

/-- Whether a `type` value is one of the five kinds the DataValidator
dispatches on (by strict equality). -/
def isKnownType (t : JSVal) : Bool :=
  jsEq t (.str "string") || jsEq t (.str "number") || jsEq t (.str "boolean")
    || jsEq t (.str "object") || jsEq t (.str "array")

/-- One step of the DataValidator on a schema node with an unrecognised
`type`: every dispatch test fails and the fall-through returns valid. -/
theorem validate_unknown_type (f d : Nat) (v : JSVal) (schema : JSVal)
    (hd : d ≤ 20)
    (hu : isKnownType (jsGet schema "type") = false) :
    ObjectV.validate (Nat.succ f) v schema d = .ok ⟨true, none⟩ := by
  simp only [isKnownType, Bool.or_eq_false_iff] at hu
  obtain ⟨⟨⟨⟨hs, hn⟩, hb⟩, ho⟩, ha⟩ := hu
  rw [ObjectV.validate]
  rw [if_neg (by omega)]
  rw [ho, if_neg Bool.false_ne_true]
  rw [ha, if_neg Bool.false_ne_true]
  rw [hs, if_neg Bool.false_ne_true]
  rw [hn, if_neg Bool.false_ne_true]
  rw [hb, if_neg Bool.false_ne_true]

/-- C6: for every value and every schema node whose `type` is none of the
five supported kinds (including an absent `type`), the DataValidator falls
through every branch of its dispatch and returns `{valid: true}`,
regardless of the value. -/
theorem c6_unknown_type_passes_through (fields : List (String × JSVal)) (v : JSVal)
    (h : isKnownType (jsGet (.obj fields) "type") = false) :
    validateData v (.obj fields) = .ok ⟨true, none⟩ :=
  validate_unknown_type _ 0 v _ (by omega) h

/-- C6, witness: the value `7` against the schema `{type: "banana"}`. -/
theorem c6_witness :
    isKnownType (jsGet (.obj [("type", .str "banana")]) "type") = false ∧
    validateData (.num 7) (.obj [("type", .str "banana")]) = .ok ⟨true, none⟩ :=
  ⟨rfl, c6_unknown_type_passes_through _ (.num 7) rfl⟩

/-- The element loop of the DataValidator's `validateArray` succeeds when
every element validates. -/
theorem arrLoop_all_ok (g : JSVal → Except String VResult) :
    ∀ (xs : List JSVal), (∀ x ∈ xs, g x = .ok ⟨true, none⟩) →
    ∀ i, ObjectV.arrLoop g xs i = .ok ⟨true, none⟩ := by
  intro xs
  induction xs with
  | nil => intro _ i; rfl
  | cons x rest ih =>
    intro h i
    have hx : g x = .ok ⟨true, none⟩ := h x (by simp)
    simp only [ObjectV.arrLoop, hx]
    exact ih (fun y hy => h y (by simp [hy])) (i + 1)

/-- The DataValidator accepts any all-`"x"` array against the zero-bounds
array schema, at any sufficient fuel: the `minItems: 0` and `maxItems: 0`
bounds are skipped because `0` is falsy. -/
theorem validate_zeroBoundsArr_ok (f : Nat) (xs : List JSVal)
    (h : ∀ x ∈ xs, x = .str "x") :
    ObjectV.validate (Nat.succ (Nat.succ f)) (.arr xs) schemaZeroBoundsArr 0 = .ok ⟨true, none⟩ := by
  have hloop : ObjectV.arrLoop
      (fun item => ObjectV.validate (Nat.succ f) item (jsGet schemaZeroBoundsArr "items") 0) xs 0
      = .ok ⟨true, none⟩ :=
    arrLoop_all_ok _ xs (fun x hx => by rw [h x hx]; rfl) 0
  rw [ObjectV.validate]
  rw [if_neg (by omega)]
  rw [show jsEq (jsGet schemaZeroBoundsArr "type") (.str "object") = false from rfl,
    if_neg Bool.false_ne_true]
  rw [show jsEq (jsGet schemaZeroBoundsArr "type") (.str "array") = true from rfl, if_pos rfl]
  rw [ObjectV.validateArray]
  rw [if_neg (by decide)]
  rw [show truthy (jsGet schemaZeroBoundsArr "minItems") = false from rfl, Bool.false_and,
    if_neg Bool.false_ne_true]
  rw [show truthy (jsGet schemaZeroBoundsArr "maxItems") = false from rfl, Bool.false_and,
    if_neg Bool.false_ne_true]
  rw [hloop]
  rfl

/-- C10: a bound whose value is `0` is never enforced by the DataValidator,
because the constraint is tested for truthiness before being compared and
`0` is falsy.  Both zero-bounds schemas pass the SchemaValidator (the same
truthiness test also skips their `typeof` checks there); every array of
strings — of any length — passes `{type: "array", items: {type: "string"},
minItems: 0, maxItems: 0}`, and every string — of any length, including
the empty one — passes `{type: "string", minLength: 0, maxLength: 0}`. -/
theorem c10_zero_bounds_never_enforced :
    validateSchema schemaZeroBoundsArr = .ok ⟨true, none⟩ ∧
    (∀ n : Nat, validateData (.arr (List.replicate n (.str "x"))) schemaZeroBoundsArr
      = .ok ⟨true, none⟩) ∧
    validateSchema schemaZeroBoundsStr = .ok ⟨true, none⟩ ∧
    (∀ s : String, validateData (.str s) schemaZeroBoundsStr = .ok ⟨true, none⟩) := by
  refine ⟨rfl, fun n => ?_, rfl, fun s => ?_⟩
  · show ObjectV.validate
      (Nat.succ (12 * jsSize (.arr (List.replicate n (.str "x"))) + 24)) _ _ 0 = _
    rw [show (12 * jsSize (.arr (List.replicate n (.str "x"))) + 24)
      = Nat.succ (12 * jsSize (.arr (List.replicate n (.str "x"))) + 23) from rfl]
    exact validate_zeroBoundsArr_ok _ _ (fun x hx => List.eq_of_mem_replicate hx)
  · rfl


/-!
## Claim theorems: the container nodes have no allowed-key check (C9)
-/

/-- Appending a fresh differently-named field to an object leaves every
other property read unchanged (`find?` still hits the same entry or
nothing). -/
theorem jsGet_append_ne (fields : List (String × JSVal)) (k : String) (w : JSVal)
    (k' : String) (h : k' ≠ k) :
    jsGet (.obj (fields ++ [(k, w)])) k' = jsGet (.obj fields) k' := by
  have hfind : ∀ l : List (String × JSVal),
      List.find? (fun p => p.1 == k') (l ++ [(k, w)]) = List.find? (fun p => p.1 == k') l := by
    intro l
    induction l with
    | nil =>
      simp only [List.nil_append, List.find?]
      have hk : (k == k') = false := by
        rw [beq_eq_false_iff_ne]
        exact fun he => h he.symm
      simp [hk]
    | cons hd tl ih =>
      cases hhd : (hd.1 == k') with
      | true => simp [List.find?, hhd]
      | false => simp [List.find?, hhd, ih]
  simp only [jsGet, hfind]

/-- `validateArray` of the SchemaValidator only reads `type`, `items`,
`minItems` and `maxItems`: a fresh key with another name cannot change it. -/
theorem sValidateArray_append (fields : List (String × JSVal)) (k : String) (w : JSVal)
    (ht : "type" ≠ k) (hi : "items" ≠ k) (hmi : "minItems" ≠ k) (hma : "maxItems" ≠ k) :
    SchemaV.validateArray (.obj (fields ++ [(k, w)])) = SchemaV.validateArray (.obj fields) := by
  unfold SchemaV.validateArray
  simp only [jsGet_append_ne fields k w "type" ht, jsGet_append_ne fields k w "items" hi,
    jsGet_append_ne fields k w "minItems" hmi, jsGet_append_ne fields k w "maxItems" hma]

/-- `validateObject` of the SchemaValidator only reads `properties` and
`required` from the node itself: a fresh key with another name cannot
change it. -/
theorem sValidateObject_append (vc : JSVal → Except String VResult)
    (fields : List (String × JSVal)) (k : String) (w : JSVal)
    (hp : "properties" ≠ k) (hr : "required" ≠ k) :
    SchemaV.validateObject vc (.obj (fields ++ [(k, w)])) =
      SchemaV.validateObject vc (.obj fields) := by
  unfold SchemaV.validateObject
  simp only [jsGet_append_ne fields k w "properties" hp, jsGet_append_ne fields k w "required" hr]

/-- C9: the SchemaValidator performs no allowed-key check on container
nodes.  Adding an extra unknown key (any name outside the fields the
container branches read) to an `array`- or `object`-typed node leaves the
result of `validateSchema` unchanged — in particular it can never by
itself cause a failure — in contrast to the leaf types, whose key sets are
checked against the frozen `ALLOWED_TYPES` table: `{type: "boolean",
minLength: 1}` is rejected for its unexpected key. -/
theorem c9_no_allowed_key_check_on_containers (fields : List (String × JSVal))
    (k : String) (w : JSVal)
    (_hfresh : hasKey (.obj fields) k = false)
    (hk : k ∉ (["type", "items", "minItems", "maxItems", "properties", "required"] : List String))
    (hty : jsGet (.obj fields) "type" = .str "array" ∨ jsGet (.obj fields) "type" = .str "object") :
    validateSchema (.obj (fields ++ [(k, w)])) = validateSchema (.obj fields) ∧
    validateSchema schemaBoolMinLength =
      .ok ⟨false, some "Unexpected schema key 'minLength' for boolean instance, expected one of [object Set Iterator]"⟩ := by
  have hne : k ≠ "type" ∧ k ≠ "items" ∧ k ≠ "minItems" ∧ k ≠ "maxItems"
      ∧ k ≠ "properties" ∧ k ≠ "required" := by
    simpa [not_or] using hk
  obtain ⟨h1, h2, h3, h4, h5, h6⟩ := hne
  refine ⟨?_, rfl⟩
  unfold validateSchema
  conv_lhs => rw [SchemaV.validate]
  conv_rhs => rw [SchemaV.validate]
  rw [sValidateObject_append _ fields k w (Ne.symm h5) (Ne.symm h6)]
  rw [sValidateArray_append fields k w (Ne.symm h1) (Ne.symm h2) (Ne.symm h3) (Ne.symm h4)]
  simp only [jsGet_append_ne fields k w "type" (Ne.symm h1),
    jsGet_append_ne fields k w "items" (Ne.symm h2)]
  rcases hty with h | h
  · simp [h, show truthy (JSVal.str "array") = true from rfl,
      show jsEq (JSVal.str "array") (.str "object") = false from rfl,
      show jsEq (JSVal.str "array") (.str "array") = true from rfl]
  · simp [h, show truthy (JSVal.str "object") = true from rfl,
      show jsEq (JSVal.str "object") (.str "object") = true from rfl]

/-- C9, witness: adding `minLength: 1` (an unknown key for an array node)
to the array schema `{type: "array", items: {type: "string"}}` leaves
`validateSchema`'s verdict unchanged. -/
theorem c9_witness :
    validateSchema (.obj ([("type", JSVal.str "array"),
        ("items", JSVal.obj [("type", JSVal.str "string")])] ++ [("minLength", JSVal.num 1)])) =
      validateSchema (.obj [("type", JSVal.str "array"),
        ("items", JSVal.obj [("type", JSVal.str "string")])]) :=
  (c9_no_allowed_key_check_on_containers
    [("type", JSVal.str "array"), ("items", JSVal.obj [("type", JSVal.str "string")])]
    "minLength" (JSVal.num 1) (by decide) (by decide) (Or.inl rfl)).1


/-!
## The required-subset invariant of valid schemas (C5)
-/

/-- The keys of an object-like value (empty when `Object.keys` would
throw): the key list over which the SchemaValidator's object loop runs. -/
def keysOf (v : JSVal) : List String :=
  match objectKeys v with
  | .ok ks => ks
  | .error _ => []

/-- The invariant at one schema node: every member of the node's required
set (as the validator builds it with `new Set`) is the name of one of the
node's declared properties. -/
def requiredSubset (s : JSVal) : Prop :=
  ∀ required, newSet (jsGet s "required") = .ok required →
    ∀ x ∈ required, ∃ k ∈ keysOf (jsGet s "properties"), x = .str k

/-- Schema-node reachability: a node is reachable from itself, through a
declared property of an object-typed node, or through the `items` of an
array-typed node — exactly the recursion structure of the SchemaValidator. -/
inductive Reaches : JSVal → JSVal → Prop where
  | here (s : JSVal) : Reaches s s
  | intoProp (s : JSVal) (k : String) (n : JSVal) :
      jsGet s "type" = .str "object" →
      k ∈ keysOf (jsGet s "properties") →
      Reaches (jsGet (jsGet s "properties") k) n →
      Reaches s n
  | intoItems (s n : JSVal) :
      jsGet s "type" = .str "array" →
      Reaches (jsGet s "items") n →
      Reaches s n

theorem jsEq_str_iff (x : JSVal) (t : String) : jsEq x (.str t) = true ↔ x = .str t := by
  cases x <;> simp [jsEq]

theorem mem_setDelete (s : List JSVal) (y x : JSVal) :
    x ∈ setDelete s y ↔ x ∈ s ∧ jsEq x y = false := by
  simp [setDelete, List.mem_filter]

theorem sObjLoop_ok (vc : JSVal → Except String VResult) (props : JSVal) :
    ∀ (keys : List String) (required : List JSVal) (r : VResult),
      SchemaV.objLoop vc props keys required = .ok r → r.valid = true →
      (∀ x ∈ required, ∃ k ∈ keys, x = .str k) ∧
      (∀ k ∈ keys, ∃ r', vc (jsGet props k) = .ok r' ∧ r'.valid = true) := by
  intro keys
  induction keys with
  | nil =>
    intro required r h hv
    rw [SchemaV.objLoop] at h
    by_cases hlen : required.length = 0
    · have hnil : required = [] := List.length_eq_zero.mp hlen
      subst hnil
      exact ⟨by simp, by simp⟩
    · exfalso
      rw [if_pos (by simpa [bne] using hlen)] at h
      injection h with h'
      rw [← h'] at hv
      simp at hv
  | cons key rest ih =>
    intro required r h hv
    rw [SchemaV.objLoop] at h
    split at h
    · injection h with h'
      rw [← h'] at hv
      simp at hv
    · rename_i hmiss
      split at h
      · exact absurd h (by simp)
      · rename_i rc hvc
        split at h
        · injection h with h'
          rw [← h'] at hv
          simp at hv
        · rename_i hrc
          have hrct : rc.valid = true := by
            cases hb : rc.valid
            · exact absurd hb hrc
            · rfl
          obtain ⟨hsub, hkids⟩ := ih (setDelete required (.str key)) r h hv
          constructor
          · intro x hx
            by_cases hxk : x = .str key
            · exact ⟨key, by simp, hxk⟩
            · have hxm : x ∈ setDelete required (.str key) := by
                rw [mem_setDelete]
                refine ⟨hx, ?_⟩
                cases hb : jsEq x (.str key)
                · rfl
                · exact absurd ((jsEq_str_iff x key).mp hb) hxk
              obtain ⟨k', hk', hxe⟩ := hsub x hxm
              exact ⟨k', by simp [hk'], hxe⟩
          · intro k hk
            rcases List.mem_cons.mp hk with he | hm
            · subst he
              exact ⟨rc, hvc, hrct⟩
            · exact hkids k hm


/-- A SchemaValidator-valid node whose `type` is `"object"` satisfies the
required-subset property, and all of its declared property values are
themselves SchemaValidator-valid. -/
theorem sValidate_object_node (fu d : Nat) (s : JSVal) (r : VResult)
    (h : SchemaV.validate fu s d = .ok r) (hv : r.valid = true)
    (hty : jsGet s "type" = .str "object") :
    requiredSubset s ∧
    (∀ k ∈ keysOf (jsGet s "properties"),
      ∃ fu' d' r', SchemaV.validate fu' (jsGet (jsGet s "properties") k) d' = .ok r'
        ∧ r'.valid = true) := by
  cases fu with
  | zero => exact absurd h (by simp [SchemaV.validate])
  | succ f =>
    rw [SchemaV.validate] at h
    by_cases hd : d > 20
    · rw [if_pos hd] at h
      injection h with h'
      rw [← h'] at hv
      simp at hv
    · rw [if_neg hd, hty] at h
      rw [if_neg (by decide), if_pos (by decide)] at h
      split at h
      · exact absurd h (by simp)
      · rename_i ro hvo
        split at h
        · injection h with h'
          rw [← h'] at hv
          simp at hv
        · rename_i hro
          have hrot : ro.valid = true := by
            cases hb : ro.valid
            · exact absurd hb hro
            · rfl
          rw [SchemaV.validateObject] at hvo
          by_cases hp : truthy (jsGet s "properties") = false
          · rw [if_pos hp] at hvo
            injection hvo with h'
            rw [← h'] at hrot
            simp at hrot
          · rw [if_neg hp] at hvo
            split at hvo
            · exact absurd hvo (by simp)
            · rename_i required hns
              split at hvo
              · exact absurd hvo (by simp)
              · rename_i propKeys hok
                split at hvo
                · injection hvo with h'
                  rw [← h'] at hrot
                  simp at hrot
                · obtain ⟨hsub, hkids⟩ := sObjLoop_ok _ _ propKeys required ro hvo hrot
                  have hkeys : keysOf (jsGet s "properties") = propKeys := by
                    simp [keysOf, hok]
                  constructor
                  · intro req' hreq' x hx
                    have hre : required = req' := by
                      rw [hns] at hreq'
                      exact Except.ok.inj hreq'
                    rw [hkeys]
                    exact hsub x (hre ▸ hx)
                  · intro k hk
                    rw [hkeys] at hk
                    obtain ⟨r', hr', hv'⟩ := hkids k hk
                    exact ⟨f, d + 1, r', hr', hv'⟩

/-- A SchemaValidator-valid node whose `type` is `"array"` has a
SchemaValidator-valid `items` schema. -/
theorem sValidate_array_node (fu d : Nat) (s : JSVal) (r : VResult)
    (h : SchemaV.validate fu s d = .ok r) (hv : r.valid = true)
    (hty : jsGet s "type" = .str "array") :
    ∃ fu' d' r', SchemaV.validate fu' (jsGet s "items") d' = .ok r' ∧ r'.valid = true := by
  cases fu with
  | zero => exact absurd h (by simp [SchemaV.validate])
  | succ f =>
    rw [SchemaV.validate] at h
    by_cases hd : d > 20
    · rw [if_pos hd] at h
      injection h with h'
      rw [← h'] at hv
      simp at hv
    · rw [if_neg hd, hty] at h
      rw [if_neg (by decide), if_neg (by decide), if_pos (by decide)] at h
      by_cases hra : (SchemaV.validateArray s).valid = false
      · rw [if_pos hra] at h
        injection h with h'
        rw [← h'] at hv
        simp at hv
      · rw [if_neg hra] at h
        split at h
        · exact absurd h (by simp)
        · rename_i ri hit
          split at h
          · injection h with h'
            rw [← h'] at hv
            simp at hv
          · rename_i hri
            refine ⟨f, d + 1, ri, hit, ?_⟩
            cases hb : ri.valid
            · exact absurd hb hri
            · rfl

/-- Every node reachable from a SchemaValidator-valid node is itself
SchemaValidator-valid (at some fuel and depth). -/
theorem reaches_preserves_valid (s n : JSVal) (hr : Reaches s n)
    (hs : ∃ fu d r, SchemaV.validate fu s d = .ok r ∧ r.valid = true) :
    ∃ fu d r, SchemaV.validate fu n d = .ok r ∧ r.valid = true := by
  induction hr with
  | here s => exact hs
  | intoProp s k n hty hk _ ih =>
    obtain ⟨fu, d, r, h, hv⟩ := hs
    obtain ⟨_, hkids⟩ := sValidate_object_node fu d s r h hv hty
    exact ih (hkids k hk)
  | intoItems s n hty _ ih =>
    obtain ⟨fu, d, r, h, hv⟩ := hs
    exact ih (sValidate_array_node fu d s r h hv hty)

/-- C5: every schema accepted by the SchemaValidator satisfies, at every
reachable object-typed node, that the node's required set is a subset of
its declared property names (the object loop deletes exactly the visited
property keys from a working copy of the set and fails unless it ends
empty); and, concretely, the schema with `required: ["foo", "bar"]` but the
single property `foo` is rejected as unsatisfiable. -/
theorem c5_required_subset_invariant :
    (∀ S n, schemaValid S = true → Reaches S n →
      jsGet n "type" = .str "object" → requiredSubset n) ∧
    validateSchema schemaTwoRequired =
      .ok ⟨false, some "Invalid object: Insatisfiable requirement: more required fields than properties (2 > 1)"⟩ := by
  refine ⟨?_, rfl⟩
  intro S n hS hr hty
  have hs : ∃ fu d r, SchemaV.validate fu S d = .ok r ∧ r.valid = true := by
    cases hval : validateSchema S with
    | error e =>
      rw [schemaValid, hval] at hS
      exact absurd hS (by simp)
    | ok r =>
      refine ⟨Nat.succ 24, 0, r, ?_, ?_⟩
      · rw [validateSchema] at hval
        exact hval
      · rw [schemaValid, hval] at hS
        exact hS
  obtain ⟨fu, d, r, h, hv⟩ := reaches_preserves_valid S n hr hs
  exact (sValidate_object_node fu d n r h hv hty).1

/-- C5, witness: the one-level object schema `objChainS 1` (required
`["a"]`, properties `{a: {type: "number"}}`) is valid, and the invariant
applied at its root places the required name `a` among its property keys. -/
theorem c5_witness :
    schemaValid (objChainS 1) = true ∧
    (∃ k ∈ keysOf (jsGet (objChainS 1) "properties"), JSVal.str "a" = JSVal.str k) := by
  constructor
  · rfl
  · exact c5_required_subset_invariant.1 (objChainS 1) (objChainS 1) rfl (Reaches.here _) rfl
      [JSVal.str "a"] rfl (JSVal.str "a") (by simp)


end MinJsonSchema
